import Mathlib

/-!
Shallow embedding of the bluele/dynamodb client library (Go sources
`dynamodb.go`, `item.go`, `query.go`) for verification of its
natural-language specification.

JSON documents returned by the service are modelled by the inductive
`Jval`; raw response bodies (which may fail `simplejson.NewJson`) by
`RawBody`.  Errors surfaced to callers are modelled by `DdbErr`,
mirroring the Go error taxonomy: typed service errors (`*Error`),
transport errors, the `ErrNotFound` sentinel, and `errors.New(...)`
message errors.  Network interaction is modelled by parameterising each
operation over the sequence of responses the server produces, and the
side effects the spec talks about (attempt counts, sleep durations) are
returned as explicit traces.
-/

namespace Dynamodb

/-- JSON values as exposed by the `simplejson` document reader used by the
library.  Objects are association lists of fields. -/
inductive Jval where
  | jnull
  | jbool (b : Bool)
  | jnum (n : Int)
  | jstr (s : String)
  | jarr (xs : List Jval)
  | jobj (fields : List (String × Jval))

/-- Field lookup in a JSON object association list (first match wins,
matching Go map semantics where keys are unique). -/
def lookupField : List (String × Jval) → String → Option Jval
  | [], _ => none
  | (k', v) :: rest, k => if k' = k then some v else lookupField rest k

/-- `json.Get(key)` / `json.CheckGet(key)`: returns the field when the value
is an object containing it, otherwise nothing. -/
def Jval.get : Jval → String → Option Jval
  | .jobj fields, k => lookupField fields k
  | _, _ => none

/-- Type assertion `.(string)` on an optional JSON value. -/
def asString : Option Jval → Option String
  | some (.jstr s) => some s
  | _ => none

/-- Type assertion `.([]interface{})` on an optional JSON value. -/
def asArray : Option Jval → Option (List Jval)
  | some (.jarr xs) => some xs
  | _ => none

/-- `MustString()`: the string value, or `""` when absent or not a string. -/
def mustString (v : Option Jval) : String := (asString v).getD ""

/-- A raw HTTP response body: either bytes that `simplejson.NewJson` rejects,
or bytes that parse to a JSON document. -/
inductive RawBody where
  | invalid
  | valid (j : Jval)

/-- `Error` from `dynamodb.go`: an error in an operation with Dynamodb. -/
structure Error where
  StatusCode : Nat
  Status : String
  Code : String
  Message : String
deriving DecidableEq, Repr

/-- `ProvisionedThroughputExceeded` constant from `dynamodb.go`. -/
def ProvisionedThroughputExceeded : String := "ProvisionedThroughputExceededException"

/-- The errors the library surfaces to callers: a typed service `*Error`,
an opaque transport error, the `ErrNotFound` sentinel, a JSON-parse
failure from `simplejson.NewJson`, or an `errors.New(msg)` message error. -/
inductive DdbErr where
  | service (e : Error)
  | transport
  | notFound
  | jsonError
  | generic (msg : String)
deriving DecidableEq, Repr

/-- Index of the first `#` in a character list, if any. -/
def firstHashIdxAux : List Char → Option Nat
  | [] => none
  | c :: rest => if c = '#' then some 0 else (firstHashIdxAux rest).map (· + 1)

/-- `strings.Index(s, "#")`: index of the first `#` in `s`, if any
(character-level model; `#` is ASCII so indices agree with Go's bytes). -/
def firstHashIdx (s : String) : Option Nat :=
  firstHashIdxAux s.toList

/-- The `Code`-extraction step of `buildError`: if the first `#` of the
namespaced type string sits at a positive index, keep the suffix after it;
otherwise keep the whole string. -/
def extractCode (codeStr : String) : String :=
  match firstHashIdx codeStr with
  | some i => if i > 0 then String.mk (codeStr.toList.drop (i + 1)) else codeStr
  | none => codeStr

/-- An HTTP response as seen by `rawQueryServer`: status code, status text
and a raw body. -/
structure HttpResponse where
  statusCode : Nat
  status : String
  body : RawBody

/-- `buildError` from `dynamodb.go`: build a typed `Error` from a non-200
response.  An unparseable body yields the fixed parse-failure code; else
`Message` is the `message` field and `Code` is extracted from `__type`. -/
def buildError (r : HttpResponse) : Error :=
  match r.body with
  | .invalid =>
      { StatusCode := r.statusCode, Status := r.status
        Code := "Failed to parse body as JSON", Message := "" }
  | .valid json =>
      { StatusCode := r.statusCode, Status := r.status
        Code := extractCode (mustString (json.get "__type"))
        Message := mustString (json.get "message") }

/-- One event on the wire for a single HTTP exchange: either the transport
fails (`http.DefaultClient.Do` returns an error) or a response arrives. -/
inductive TransportEvent where
  | netErr
  | resp (r : HttpResponse)

/-- `rawQueryServer` from `dynamodb.go`, run against a scripted list of
transport events (one consumed per HTTP exchange; an exhausted script acts
as a transport failure).  Returns the result, the list of slept durations
in seconds, and the number of HTTP exchanges performed.  On a non-200
response whose extracted code is `ProvisionedThroughputExceeded` and with
`retryCount >= 0`, it increments the count, sleeps `retryCount` seconds and
recurses; otherwise the typed error is returned. -/
def rawQueryServer : List TransportEvent → Int → Except DdbErr RawBody × List Int × Nat
  | [], _ => (.error .transport, [], 1)
  | .netErr :: _, _ => (.error .transport, [], 1)
  | .resp r :: rest, retryCount =>
      if r.statusCode ≠ 200 then
        let ddbErr := buildError r
        if ddbErr.Code = ProvisionedThroughputExceeded ∧ retryCount ≥ 0 then
          let rc := retryCount + 1
          let (res, sleeps, n) := rawQueryServer rest rc
          (res, rc :: sleeps, n + 1)
        else
          (.error (.service ddbErr), [], 1)
      else
        (.ok r.body, [], 1)

/-- The `retryCount` initialisation of `RawQueryTable` in `query.go`:
opting in to retries means starting at 0, opting out means -1. -/
def rawQueryTableRetryCount (isRetry : Bool) : Int :=
  if isRetry then 0 else -1

/-- Modelled from the spec: the wire type tag for strings (`{"S": ...}`);
the `TYPE_STRING` constant lives in a repository file not present here. -/
def TYPE_STRING : String := "S"

/-- Modelled from the spec: the wire type tag for numbers (`{"N": ...}`). -/
def TYPE_NUMBER : String := "N"

/-- Modelled from the spec: the wire type tag for binary (`{"B": ...}`). -/
def TYPE_BINARY : String := "B"

/-- Modelled from the spec: the wire type tag for string sets
(`{"SS": [...]}`). -/
def TYPE_STRING_SET : String := "SS"

/-- Modelled from the spec: the wire type tag for number sets
(`{"NS": [...]}`). -/
def TYPE_NUMBER_SET : String := "NS"

/-- Modelled from the spec: the wire type tag for binary sets
(`{"BS": [...]}`). -/
def TYPE_BINARY_SET : String := "BS"

/-- The `Attribute` record as used throughout `item.go`: a type tag, a
name, and either a single string payload or a set of string payloads. -/
structure Attribute where
  type : String
  name : String
  value : String := ""
  setValues : List String := []
deriving DecidableEq, Repr

/-- The per-element conversion inside the set branches of
`parseAttributes`: a string element is kept, anything else leaves the
slot at Go's zero value `""`. -/
def strOrZero : Jval → String
  | .jstr s => s
  | _ => ""

/-- One iteration of the `parseAttributes` loop in `item.go`: probe the
field's wire object against the six type tags in source order (String,
Number, Binary, StringSet, NumberSet, BinarySet); the first present,
type-correct tag wins; otherwise (or when the value is not an object) the
field decodes to nothing. -/
def parseAttribute (key : String) (value : Jval) : Option Attribute :=
  match value with
  | .jobj fields =>
      let v := Jval.jobj fields
      match asString (v.get TYPE_STRING) with
      | some val => some { type := TYPE_STRING, name := key, value := val }
      | none =>
      match asString (v.get TYPE_NUMBER) with
      | some val => some { type := TYPE_NUMBER, name := key, value := val }
      | none =>
      match asString (v.get TYPE_BINARY) with
      | some val => some { type := TYPE_BINARY, name := key, value := val }
      | none =>
      match asArray (v.get TYPE_STRING_SET) with
      | some vals =>
          some { type := TYPE_STRING_SET, name := key
                 setValues := vals.map strOrZero }
      | none =>
      match asArray (v.get TYPE_NUMBER_SET) with
      | some vals =>
          some { type := TYPE_NUMBER_SET, name := key
                 setValues := vals.map strOrZero }
      | none =>
      match asArray (v.get TYPE_BINARY_SET) with
      | some vals =>
          some { type := TYPE_BINARY_SET, name := key
                 setValues := vals.map strOrZero }
      | none => none
  | _ => none

/-- `parseAttributes` from `item.go`: decode each field of a wire item,
silently dropping fields that decode to nothing; never fails as a whole.
The Go map is modelled as an association list with distinct keys. -/
def parseAttributes (s : List (String × Jval)) : List (String × Attribute) :=
  s.filterMap (fun kv => (parseAttribute kv.1 kv.2).map (fun a => (kv.1, a)))

/-- Modelled from the spec: `Encode` (the attribute-to-wire direction,
whose source lives in a repository file not present here) emits
`{ typeTagOf(attr.Type): payload }`; scalar types carry their single
string payload, set types an ordered list of their string members. -/
def encodeAttribute (a : Attribute) : Jval :=
  if a.type = TYPE_STRING_SET ∨ a.type = TYPE_NUMBER_SET ∨ a.type = TYPE_BINARY_SET then
    .jobj [(a.type, .jarr (a.setValues.map .jstr))]
  else
    .jobj [(a.type, .jstr a.value)]

/-- The spec's invariant on `Attribute`: the type tag is one of the six
supported ones and exactly the payload form matching the type is
populated (scalars leave `setValues` empty, sets leave `value` empty). -/
def wellFormedAttribute (a : Attribute) : Prop :=
  ((a.type = TYPE_STRING ∨ a.type = TYPE_NUMBER ∨ a.type = TYPE_BINARY) ∧
      a.setValues = []) ∨
  ((a.type = TYPE_STRING_SET ∨ a.type = TYPE_NUMBER_SET ∨ a.type = TYPE_BINARY_SET) ∧
      a.value = "")

/-- `maxNumberOfRetry` from `item.go`. -/
def maxNumberOfRetry : Nat := 4

/-- The retry test in `putItem`: Go's `err.(*Error)` type assertion only
succeeds on typed service errors, so only those can be retryable, and
they are retryable exactly when `StatusCode == 500` or the code is one of
the two throttling codes. -/
def isRetryableErr : DdbErr → Bool
  | .service e =>
      e.StatusCode == 500 || e.Code == "ThrottlingException" ||
        e.Code == "ProvisionedThroughputExceededException"
  | _ => false

/-- The retry loop of `putItem` in `item.go`, run against a scripted
server (`resps i` is what the `queryServer` call of attempt `i` returns;
attempt indices coincide with `currentRetry`, which starts at 0 and grows
by 1 per iteration).  Returns the final `(jsonResponse, err)` pair, the
list of slept durations in milliseconds, and the total number of attempts
made.  Each iteration queries, breaks once `currentRetry` reaches
`maxNumberOfRetry`, breaks on success or a non-retryable error, and
otherwise sleeps `(1 <<< currentRetry) * 50` ms before the next attempt. -/
def putItemLoop (resps : Nat → Except DdbErr RawBody) (currentRetry : Nat) :
    Except DdbErr RawBody × List Nat × Nat :=
  let r := resps currentRetry
  if _h : currentRetry ≥ maxNumberOfRetry then
    (r, [], currentRetry + 1)
  else
    match r with
    | .ok body => (.ok body, [], currentRetry + 1)
    | .error e =>
        if isRetryableErr e then
          let rec' := putItemLoop resps (currentRetry + 1)
          (rec'.1, (1 <<< currentRetry) * 50 :: rec'.2.1, rec'.2.2)
        else
          (.error e, [], currentRetry + 1)
termination_by maxNumberOfRetry - currentRetry

/-- `putItem` from `item.go`, with the request construction (delegated to
the query-builder file, which only shapes the outgoing body) abstracted
into the scripted responses.  An empty attribute list fails up front with
`At least one attribute is required.` and performs no attempt; otherwise
the retry loop runs, a final error is surfaced as `(false, err)`, a final
body that fails JSON parsing as `(false, jsonError)`, and a parseable
body as `(true, none)`.  The second and third components are the slept
durations (ms) and the number of attempts. -/
def putItem (attributes : List Attribute) (resps : Nat → Except DdbErr RawBody) :
    (Bool × Option DdbErr) × List Nat × Nat :=
  if attributes.length = 0 then
    ((false, some (.generic "At least one attribute is required.")), [], 0)
  else
    let (r, sleeps, n) := putItemLoop resps 0
    match r with
    | .error e => ((false, some e), sleeps, n)
    | .ok .invalid => ((false, some .jsonError), sleeps, n)
    | .ok (.valid _) => ((true, none), sleeps, n)

/-- `getItem` from `item.go`, applied to the outcome of its single
`queryServer` call: errors propagate; an unparseable body is a JSON
error; a parsed body without an `Item` field is the `ErrNotFound`
sentinel; an `Item` field that is not an object is the generic
unexpected-response error; otherwise the item is decoded with
`parseAttributes`. -/
def getItem (resp : Except DdbErr RawBody) :
    Except DdbErr (List (String × Attribute)) :=
  match resp with
  | .error e => .error e
  | .ok .invalid => .error .jsonError
  | .ok (.valid json) =>
      match json.get "Item" with
      | none => .error .notFound
      | some itemJson =>
          match itemJson with
          | .jobj m => .ok (parseAttributes m)
          | _ => .error (.generic "Unexpected response")

/-- `BatchWriteItem.Execute` from `item.go`, applied to the outcome of its
single `queryServer` call.  Mirrors Go's `(map, error)` pair: errors and
unparseable bodies yield `(none, some err)`; a parsed body whose
`UnprocessedItems` field is missing or not an object yields the generic
unexpected-response error; an empty mapping yields `(none, none)`; a
non-empty one is returned together with the dedicated error. -/
def batchWriteItemExecute (resp : Except DdbErr RawBody) :
    Option (List (String × Jval)) × Option DdbErr :=
  match resp with
  | .error e => (none, some e)
  | .ok .invalid => (none, some .jsonError)
  | .ok (.valid json) =>
      match json.get "UnprocessedItems" with
      | some (.jobj unprocessed) =>
          if unprocessed.length = 0 then (none, none)
          else (some unprocessed, some (.generic "One or more unprocessed items."))
      | _ => (none, some (.generic "Unexpected response"))

/-- `modifyAttributes` from `item.go`, applied to the outcome of its
single `queryServer` call.  An empty attribute list fails up front with
`At least one attribute is required.` and performs no request; the final
`Nat` counts the requests sent. -/
def modifyAttributes (attributes : List Attribute) (resp : Except DdbErr RawBody) :
    (Bool × Option DdbErr) × Nat :=
  if attributes.length = 0 then
    ((false, some (.generic "At least one attribute is required.")), 0)
  else
    match resp with
    | .error e => ((false, some e), 1)
    | .ok .invalid => ((false, some .jsonError), 1)
    | .ok (.valid _) => ((true, none), 1)

/-! ### Theorems -/

/-- C10: calling `putItem` (hence `PutItem` and `ConditionalPutItem`) or
`modifyAttributes` (hence all Add/Update/DeleteAttributes variants) with an
empty attribute list returns `false` with the error
`At least one attribute is required.` and performs zero server requests,
whatever the server would have answered. -/
theorem emptyAttributes_rejected :
    (∀ resps : Nat → Except DdbErr RawBody,
      putItem [] resps =
        ((false, some (.generic "At least one attribute is required.")), [], 0)) ∧
    (∀ resp : Except DdbErr RawBody,
      modifyAttributes [] resp =
        ((false, some (.generic "At least one attribute is required.")), 0)) :=
  ⟨fun _ => rfl, fun _ => rfl⟩

/-- C5: a `getItem` call whose response is HTTP 200 with valid JSON but no
`Item` field yields the distinct `ErrNotFound` sentinel, while a response
whose `Item` field is the empty object yields an empty decoded attribute
map with no error. -/
theorem getItem_notFound_vs_empty :
    (∀ json : Jval, json.get "Item" = none →
      getItem (.ok (.valid json)) = .error .notFound) ∧
    (∀ json : Jval, json.get "Item" = some (.jobj []) →
      getItem (.ok (.valid json)) = .ok []) := by
  constructor
  · intro json h
    simp [getItem, h]
  · intro json h
    simp [getItem, h, parseAttributes]

/-- Witness for C5: concrete responses exercising both branches of
`getItem_notFound_vs_empty`. -/
theorem getItem_notFound_vs_empty_witness :
    getItem (.ok (.valid (.jobj [("Foo", .jstr "x")]))) = .error .notFound ∧
    getItem (.ok (.valid (.jobj [("Item", .jobj [])]))) = .ok [] :=
  ⟨getItem_notFound_vs_empty.1 _ rfl, getItem_notFound_vs_empty.2 _ rfl⟩

/-- C8: a `BatchWriteItem.Execute` whose valid response decodes an
`UnprocessedItems` object returns `(nil, nil)` when the mapping is empty
and the exact mapping together with the dedicated non-nil error when it
is not. -/
theorem batchWriteItem_unprocessed (json : Jval) (m : List (String × Jval))
    (h : json.get "UnprocessedItems" = some (.jobj m)) :
    (m = [] → batchWriteItemExecute (.ok (.valid json)) = (none, none)) ∧
    (m ≠ [] → batchWriteItemExecute (.ok (.valid json)) =
      (some m, some (.generic "One or more unprocessed items."))) := by
  constructor
  · intro hm
    subst hm
    simp [batchWriteItemExecute, h]
  · intro hm
    simp [batchWriteItemExecute, h, List.length_eq_zero, hm]

/-- Witness for C8: an empty mapping and a one-item mapping for table
`T`. -/
theorem batchWriteItem_unprocessed_witness :
    batchWriteItemExecute (.ok (.valid (.jobj [("UnprocessedItems", .jobj [])]))) =
      (none, none) ∧
    batchWriteItemExecute
        (.ok (.valid (.jobj [("UnprocessedItems",
          .jobj [("T", .jarr [.jobj [("PutRequest", .jstr "x")]])])]))) =
      (some [("T", .jarr [.jobj [("PutRequest", .jstr "x")]])],
        some (.generic "One or more unprocessed items.")) :=
  ⟨(batchWriteItem_unprocessed (.jobj [("UnprocessedItems", .jobj [])]) [] rfl).1 rfl,
    (batchWriteItem_unprocessed
        (.jobj [("UnprocessedItems",
          .jobj [("T", .jarr [.jobj [("PutRequest", .jstr "x")]])])])
        [("T", .jarr [.jobj [("PutRequest", .jstr "x")]])] rfl).2 (by simp)⟩

/-- Mapping a list of strings onto the wire and back through the set
branch of `parseAttributes` is the identity. -/
theorem strOrZero_map_jstr (l : List String) :
    l.map (strOrZero ∘ Jval.jstr) = l := by
  induction l with
  | nil => rfl
  | cons x xs ih => simp [strOrZero, ih]

/-- C7: `parseAttribute` probes the six type tags in the fixed priority
order (String first, here exhibited against Number even when the Number
tag is listed first on the wire), and decoding an item with one
well-formed field and one unrecognised field keeps exactly the
well-formed field, in either field order, with no error — `parseAttributes`
totally never fails. -/
theorem parseAttributes_drops_unknown (k₁ : String) (v₁ : Jval) (a : Attribute)
    (k₂ : String) (v₂ : Jval)
    (h₁ : parseAttribute k₁ v₁ = some a) (h₂ : parseAttribute k₂ v₂ = none) :
    parseAttributes [(k₁, v₁), (k₂, v₂)] = [(k₁, a)] ∧
    parseAttributes [(k₂, v₂), (k₁, v₁)] = [(k₁, a)] ∧
    (∀ (k x s : String),
      parseAttribute k (.jobj [(TYPE_NUMBER, .jstr x), (TYPE_STRING, .jstr s)]) =
        some { type := TYPE_STRING, name := k, value := s }) := by
  refine ⟨?_, ?_, ?_⟩
  · simp [parseAttributes, h₁, h₂]
  · simp [parseAttributes, h₁, h₂]
  · intro k x s
    simp [parseAttribute, Jval.get, lookupField, asString,
      TYPE_STRING, TYPE_NUMBER]

/-- Witness for C7: an item with a well-formed string field and a field
carrying an unrecognised type tag decodes to just the former. -/
theorem parseAttributes_drops_unknown_witness :
    parseAttributes [("f1", .jobj [("S", .jstr "x")]), ("f2", .jobj [("XX", .jstr "y")])] =
      [("f1", { type := "S", name := "f1", value := "x" })] ∧
    parseAttributes [("f2", .jobj [("XX", .jstr "y")]), ("f1", .jobj [("S", .jstr "x")])] =
      [("f1", { type := "S", name := "f1", value := "x" })] ∧
    parseAttribute "k" (.jobj [("N", .jstr "1"), ("S", .jstr "s")]) =
      some { type := "S", name := "k", value := "s" } := by
  have h := parseAttributes_drops_unknown "f1" (.jobj [("S", .jstr "x")])
    { type := "S", name := "f1", value := "x" } "f2" (.jobj [("XX", .jstr "y")])
    rfl rfl
  exact ⟨h.1, h.2.1, h.2.2 "k" "1" "s"⟩

/-- C9: decoding the wire encoding of any well-formed attribute of the six
supported types returns it unchanged (`Decode(Encode(a)) == a`). -/
theorem decode_encode_roundtrip (a : Attribute) (h : wellFormedAttribute a) :
    parseAttribute a.name (encodeAttribute a) = some a := by
  obtain ⟨ht, hs⟩ | ⟨ht, hv⟩ := h
  · obtain ⟨t, n, v, sv⟩ := a
    simp only at ht hs
    subst hs
    rcases ht with ht | ht | ht <;> subst ht <;>
      simp [encodeAttribute, parseAttribute, Jval.get, lookupField, asString,
        TYPE_STRING, TYPE_NUMBER, TYPE_BINARY, TYPE_STRING_SET,
        TYPE_NUMBER_SET, TYPE_BINARY_SET]
  · obtain ⟨t, n, v, sv⟩ := a
    simp only at ht hv
    subst hv
    rcases ht with ht | ht | ht <;> subst ht <;>
      simp [encodeAttribute, parseAttribute, Jval.get, lookupField, asString,
        asArray, TYPE_STRING, TYPE_NUMBER, TYPE_BINARY, TYPE_STRING_SET,
        TYPE_NUMBER_SET, TYPE_BINARY_SET, strOrZero_map_jstr]

/-- Witness for C9: the round trip evaluated at one attribute of each of
the six types, the set types taken both with one and with several
members. -/
theorem decode_encode_roundtrip_witness :
    parseAttribute "a" (encodeAttribute { type := "S", name := "a", value := "v" }) =
      some { type := "S", name := "a", value := "v" } ∧
    parseAttribute "b" (encodeAttribute { type := "N", name := "b", value := "12" }) =
      some { type := "N", name := "b", value := "12" } ∧
    parseAttribute "c" (encodeAttribute { type := "B", name := "c", value := "aGk=" }) =
      some { type := "B", name := "c", value := "aGk=" } ∧
    parseAttribute "d" (encodeAttribute { type := "SS", name := "d", setValues := ["x"] }) =
      some { type := "SS", name := "d", setValues := ["x"] } ∧
    parseAttribute "e" (encodeAttribute { type := "SS", name := "e", setValues := ["x", "y", "z"] }) =
      some { type := "SS", name := "e", setValues := ["x", "y", "z"] } ∧
    parseAttribute "f" (encodeAttribute { type := "NS", name := "f", setValues := ["1"] }) =
      some { type := "NS", name := "f", setValues := ["1"] } ∧
    parseAttribute "g" (encodeAttribute { type := "NS", name := "g", setValues := ["1", "2"] }) =
      some { type := "NS", name := "g", setValues := ["1", "2"] } ∧
    parseAttribute "h" (encodeAttribute { type := "BS", name := "h", setValues := ["aQ=="] }) =
      some { type := "BS", name := "h", setValues := ["aQ=="] } ∧
    parseAttribute "i" (encodeAttribute { type := "BS", name := "i", setValues := ["aQ==", "ag=="] }) =
      some { type := "BS", name := "i", setValues := ["aQ==", "ag=="] } :=
  ⟨decode_encode_roundtrip { type := "S", name := "a", value := "v" }
      (Or.inl ⟨Or.inl rfl, rfl⟩),
    decode_encode_roundtrip { type := "N", name := "b", value := "12" }
      (Or.inl ⟨Or.inr (Or.inl rfl), rfl⟩),
    decode_encode_roundtrip { type := "B", name := "c", value := "aGk=" }
      (Or.inl ⟨Or.inr (Or.inr rfl), rfl⟩),
    decode_encode_roundtrip { type := "SS", name := "d", setValues := ["x"] }
      (Or.inr ⟨Or.inl rfl, rfl⟩),
    decode_encode_roundtrip { type := "SS", name := "e", setValues := ["x", "y", "z"] }
      (Or.inr ⟨Or.inl rfl, rfl⟩),
    decode_encode_roundtrip { type := "NS", name := "f", setValues := ["1"] }
      (Or.inr ⟨Or.inr (Or.inl rfl), rfl⟩),
    decode_encode_roundtrip { type := "NS", name := "g", setValues := ["1", "2"] }
      (Or.inr ⟨Or.inr (Or.inl rfl), rfl⟩),
    decode_encode_roundtrip { type := "BS", name := "h", setValues := ["aQ=="] }
      (Or.inr ⟨Or.inr (Or.inr rfl), rfl⟩),
    decode_encode_roundtrip { type := "BS", name := "i", setValues := ["aQ==", "ag=="] }
      (Or.inr ⟨Or.inr (Or.inr rfl), rfl⟩)⟩

/-- A character list without `#` has no first-`#` index. -/
theorem firstHashIdxAux_of_not_mem (l : List Char) (h : '#' ∉ l) :
    firstHashIdxAux l = none := by
  induction l with
  | nil => rfl
  | cons c rest ih =>
      simp only [List.mem_cons, not_or] at h
      simp [firstHashIdxAux, Ne.symm h.1, ih h.2]

/-- The first-`#` index of `a ++ '#' :: b` with `#` not in `a` is
`a.length`. -/
theorem firstHashIdxAux_append (a b : List Char) (ha : '#' ∉ a) :
    firstHashIdxAux (a ++ '#' :: b) = some a.length := by
  induction a with
  | nil => simp [firstHashIdxAux]
  | cons c rest ih =>
      simp only [List.mem_cons, not_or] at ha
      simp [firstHashIdxAux, Ne.symm ha.1, ih ha.2]

/-- C6 counterexample: for a response whose `__type` is `a#b#c`, the code
`buildError` extracts is `b#c` — the suffix after the *first* `#` — and
not `c`, the suffix after the last `#` that the claim prescribes. -/
theorem buildError_code_not_suffix_after_last_hash :
    (buildError
      { statusCode := 400, status := "400 Bad Request"
        body := .valid (.jobj [("__type", .jstr "a#b#c"), ("message", .jstr "m")]) }).Code =
      "b#c" ∧ ("b#c" : String) ≠ "c" := by
  constructor
  · decide
  · decide

/-- C6 amended: `buildError` extracts the `Code` as the suffix after the
*first* `#` of the `__type` string, and only when that `#` sits at a
positive index; when `__type` has no `#`, or its first `#` is at index 0,
the full string is kept as the code. -/
theorem buildError_code_first_hash (r : HttpResponse) (json : Jval) (s : String)
    (hb : r.body = .valid json) (ht : json.get "__type" = some (.jstr s)) :
    ('#' ∉ s.toList → (buildError r).Code = s) ∧
    (∀ a b : List Char, s.toList = a ++ '#' :: b → '#' ∉ a →
      (a = [] → (buildError r).Code = s) ∧
      (a ≠ [] → (buildError r).Code = String.mk b)) := by
  have hc : (buildError r).Code = extractCode s := by
    simp [buildError, hb, mustString, ht, asString]
  constructor
  · intro hmem
    have hnone : firstHashIdx s = none := firstHashIdxAux_of_not_mem _ hmem
    rw [hc]
    unfold extractCode
    rw [hnone]
  · intro a b hsplit hmem
    have hidx : firstHashIdx s = some a.length :=
      (congrArg firstHashIdxAux hsplit).trans (firstHashIdxAux_append a b hmem)
    constructor
    · intro hnil
      subst hnil
      rw [hc]
      unfold extractCode
      rw [hidx]
      simp
    · intro hne
      have hlen : 0 < a.length := List.length_pos.mpr hne
      have hdrop : s.toList.drop (a.length + 1) = b := by
        rw [hsplit]
        calc (a ++ '#' :: b).drop (a.length + 1)
            = ((a ++ ['#']) ++ b).drop (a ++ ['#']).length := by
              simp [List.append_assoc]
          _ = b := List.drop_left _ _
      rw [hc]
      unfold extractCode
      rw [hidx]
      simp only [hlen, if_pos, gt_iff_lt]
      rw [hdrop]

/-- Witness for C6's amended claim: a `__type` without `#` keeps the whole
string, and `ns#Code` yields `Code`. -/
theorem buildError_code_first_hash_witness :
    (buildError
      { statusCode := 400, status := "400 Bad Request"
        body := .valid (.jobj [("__type", .jstr "SomeError")]) }).Code = "SomeError" ∧
    (buildError
      { statusCode := 400, status := "400 Bad Request"
        body := .valid (.jobj [("__type", .jstr "ns#Code")]) }).Code = "Code" := by
  constructor
  · exact (buildError_code_first_hash _ (.jobj [("__type", .jstr "SomeError")])
      "SomeError" rfl rfl).1 (by decide)
  · exact (((buildError_code_first_hash _ (.jobj [("__type", .jstr "ns#Code")])
      "ns#Code" rfl rfl).2 ['n', 's'] ['C', 'o', 'd', 'e'] (by decide)
      (by decide)).2 (by decide)).trans (by decide)

/-- The loop breaks immediately (one more attempt, no sleep) once the
budget is reached, the attempt succeeds, or its error is not retryable. -/
theorem putItemLoop_stop (resps : Nat → Except DdbErr RawBody) (c : Nat)
    (hstop : maxNumberOfRetry ≤ c ∨
      (∀ e, resps c = .error e → isRetryableErr e = false) ∨
      (∃ b, resps c = .ok b)) :
    putItemLoop resps c = (resps c, [], c + 1) := by
  rw [putItemLoop.eq_def]
  by_cases h4 : maxNumberOfRetry ≤ c
  · simp [h4]
  · simp only [ge_iff_le, h4, dite_false]
    rcases hr : resps c with e | b
    · have hne : isRetryableErr e = false := by
        rcases hstop with h | h | ⟨b, hb⟩
        · exact absurd h h4
        · exact h e hr
        · rw [hr] at hb; cases hb
      simp [hne]
    · rfl

/-- Running the loop from attempt `c` while every attempt before `t` fails
retryably and the loop stops at `t` (budget reached, success, or
non-retryable error) returns attempt `t`'s outcome after `t + 1` attempts,
having slept `(1 <<< (c+k)) * 50` ms before each retry. -/
theorem putItemLoop_runs_to (resps : Nat → Except DdbErr RawBody) :
    ∀ (d c t : Nat), t - c ≤ d → c ≤ t → t ≤ maxNumberOfRetry →
      (∀ i, c ≤ i → i < t → ∃ e, resps i = .error e ∧ isRetryableErr e = true) →
      (t = maxNumberOfRetry ∨ (∀ e, resps t = .error e → isRetryableErr e = false) ∨
        (∃ b, resps t = .ok b)) →
      putItemLoop resps c =
        (resps t, (List.range (t - c)).map (fun k => (1 <<< (c + k)) * 50), t + 1) := by
  intro d
  induction d with
  | zero =>
      intro c t hd hct ht4 _hfail hstop
      have hct' : c = t := by omega
      subst hct'
      rw [putItemLoop_stop resps c ?_]
      · simp
      · rcases hstop with h | h | h
        · exact Or.inl (le_of_eq h.symm)
        · exact Or.inr (Or.inl h)
        · exact Or.inr (Or.inr h)
  | succ d ih =>
      intro c t hd hct ht4 hfail hstop
      by_cases hct' : c = t
      · subst hct'
        rw [putItemLoop_stop resps c ?_]
        · simp
        · rcases hstop with h | h | h
          · exact Or.inl (le_of_eq h.symm)
          · exact Or.inr (Or.inl h)
          · exact Or.inr (Or.inr h)
      · have hlt : c < t := lt_of_le_of_ne hct hct'
        have h4 : ¬ maxNumberOfRetry ≤ c := by omega
        obtain ⟨e, he, hre⟩ := hfail c le_rfl hlt
        rw [putItemLoop.eq_def]
        simp only [ge_iff_le, h4, dite_false, he, hre, if_true]
        rw [ih (c + 1) t (by omega) (by omega) ht4
          (fun i hi hit => hfail i (by omega) hit) hstop]
        have hm : t - c = (t - (c + 1)) + 1 := by omega
        rw [hm, List.range_succ_eq_map]
        simp only [List.map_cons, List.map_map, Nat.add_zero]
        have hfun : (fun k => 1 <<< (c + 1 + k) * 50) =
            (fun k => 1 <<< (c + k) * 50) ∘ Nat.succ := by
          funext k
          simp only [Function.comp_apply, Nat.succ_eq_add_one]
          congr 2
          omega
        rw [hfun]

/-- Whenever `putItem` actually runs the loop (non-empty attributes), its
sleep trace and attempt count are those of the loop. -/
theorem putItem_trace (attributes : List Attribute)
    (resps : Nat → Except DdbErr RawBody) (hne : attributes ≠ []) :
    (putItem attributes resps).2 = (putItemLoop resps 0).2 := by
  have hlen : ¬ attributes.length = 0 := by
    simpa [List.length_eq_zero] using hne
  rcases hl : putItemLoop resps 0 with ⟨r, rest⟩
  rcases r with e | b
  · simp [putItem, hlen, hl]
  · cases b <;> simp [putItem, hlen, hl]

/-- Attempt counts only grow along the loop: starting at attempt `c`, at
least `c + 1` attempts are made. -/
theorem putItemLoop_attempts_ge (resps : Nat → Except DdbErr RawBody) :
    ∀ (d c : Nat), maxNumberOfRetry - c ≤ d → c + 1 ≤ (putItemLoop resps c).2.2 := by
  intro d
  induction d with
  | zero =>
      intro c hc
      rw [putItemLoop_stop resps c (Or.inl (by omega))]
  | succ d ih =>
      intro c hc
      rw [putItemLoop.eq_def]
      by_cases h4 : maxNumberOfRetry ≤ c
      · simp [h4]
      · simp only [ge_iff_le, h4, dite_false]
        rcases hr : resps c with e | b
        · by_cases hre : isRetryableErr e
          · simp only [hre, if_true]
            have := ih (c + 1) (by omega)
            omega
          · simp [hre]
        · simp

/-- C1: if every `putItem` attempt fails with an HTTP 500 service error,
exactly 5 attempts (initial plus 4 retries) are made and the last
attempt's error is surfaced with result `false`; if the first two
attempts fail that way and the third succeeds with a parseable body,
exactly 3 attempts are made and `(true, nil)` is returned. -/
theorem putItem_retry_bound (attributes : List Attribute)
    (resps resps' : Nat → Except DdbErr RawBody) (errs : Nat → Error) (j : Jval)
    (hne : attributes ≠ [])
    (hfail : ∀ i, i ≤ 4 → resps i = .error (.service (errs i)))
    (h500 : ∀ i, i ≤ 4 → (errs i).StatusCode = 500)
    (h01 : ∀ i, i < 2 → resps' i = .error (.service (errs i)))
    (hok : resps' 2 = .ok (.valid j)) :
    putItem attributes resps =
      ((false, some (.service (errs 4))), [50, 100, 200, 400], 5) ∧
    putItem attributes resps' = ((true, none), [50, 100], 3) := by
  have hlen : ¬ attributes.length = 0 := by
    simpa [List.length_eq_zero] using hne
  have hretry : ∀ i, i ≤ 4 → isRetryableErr (.service (errs i)) = true := by
    intro i hi
    simp [isRetryableErr, h500 i hi]
  constructor
  · have hloop := putItemLoop_runs_to resps 4 0 4 (by omega) (by omega)
      (by simp [maxNumberOfRetry])
      (fun i _ hit => ⟨.service (errs i), hfail i (by omega), hretry i (by omega)⟩)
      (Or.inl rfl)
    rw [hfail 4 (by omega)] at hloop
    simp only [putItem, hlen, if_false]
    rw [hloop]
    norm_num
    decide
  · have hloop := putItemLoop_runs_to resps' 4 0 2 (by omega) (by omega)
      (by simp [maxNumberOfRetry])
      (fun i _ hit => ⟨.service (errs i), h01 i hit, hretry i (by omega)⟩)
      (Or.inr (Or.inr ⟨.valid j, hok⟩))
    rw [hok] at hloop
    simp only [putItem, hlen, if_false]
    rw [hloop]
    norm_num
    decide

/-- A concrete item attribute used by the witnesses below. -/
def attrA : Attribute := { type := "S", name := "color", value := "red" }

/-- A concrete retryable HTTP 500 service error. -/
def err500 : Error :=
  { StatusCode := 500, Status := "500 Internal Server Error"
    Code := "InternalServerError", Message := "server error" }

/-- A server that answers every attempt with `err500`. -/
def resps500 : Nat → Except DdbErr RawBody := fun _ => .error (.service err500)

/-- A server that answers the first two attempts with `err500` and then
succeeds with an empty JSON object. -/
def respsOk3 : Nat → Except DdbErr RawBody := fun i =>
  if i < 2 then .error (.service err500) else .ok (.valid (.jobj []))

/-- Witness for C1: `putItem` against the two concrete servers. -/
theorem putItem_retry_bound_witness :
    putItem [attrA] resps500 =
      ((false, some (.service err500)), [50, 100, 200, 400], 5) ∧
    putItem [attrA] respsOk3 = ((true, none), [50, 100], 3) :=
  putItem_retry_bound [attrA] resps500 respsOk3 (fun _ => err500) (.jobj [])
    (by simp)
    (fun i _ => rfl)
    (fun i _ => rfl)
    (fun i hi => by simp [respsOk3, hi])
    (by simp [respsOk3])

/-- A concrete non-retryable service error (HTTP 400 validation error). -/
def err400 : Error :=
  { StatusCode := 400, Status := "400 Bad Request"
    Code := "ValidationException", Message := "One or more parameter values were invalid" }

/-- A server that answers every attempt with `err400`. -/
def resps400 : Nat → Except DdbErr RawBody := fun _ => .error (.service err400)

/-- C2 counterexample: the first attempt returns a non-nil error while the
attempt budget (5 in total) is far from exhausted, yet `putItem` makes
exactly one attempt and surfaces the error — it does not retry on
arbitrary non-nil errors. -/
theorem putItem_no_retry_on_nonretryable_error :
    resps400 0 = .error (.service err400) ∧
    (1 : Nat) < 1 + maxNumberOfRetry ∧
    putItem [attrA] resps400 = ((false, some (.service err400)), [], 1) := by
  refine ⟨rfl, by decide, ?_⟩
  simp [putItem, putItemLoop, resps400, isRetryableErr, err400, attrA,
    maxNumberOfRetry]

/-- C2 amended: in the Put retry tier an error triggers a retry (budget
permitting) exactly when it is a typed service `Error` with
`StatusCode == 500` or code `ThrottlingException` or
`ProvisionedThroughputExceededException`; any other error — including
errors that are not typed service errors — surfaces immediately after a
single attempt. -/
theorem putItem_retry_condition (attributes : List Attribute)
    (resps : Nat → Except DdbErr RawBody) (e : DdbErr)
    (hne : attributes ≠ []) (h0 : resps 0 = .error e) :
    (isRetryableErr e = true ↔
      ∃ err, e = .service err ∧ (err.StatusCode = 500 ∨
        err.Code = "ThrottlingException" ∨
        err.Code = "ProvisionedThroughputExceededException")) ∧
    (isRetryableErr e = false →
      putItem attributes resps = ((false, some e), [], 1)) ∧
    (isRetryableErr e = true → 2 ≤ (putItem attributes resps).2.2) := by
  have hlen : ¬ attributes.length = 0 := by
    simpa [List.length_eq_zero] using hne
  refine ⟨?_, ?_, ?_⟩
  · cases e with
    | service err => simp [isRetryableErr, or_assoc]
    | transport => simp [isRetryableErr]
    | notFound => simp [isRetryableErr]
    | jsonError => simp [isRetryableErr]
    | generic msg => simp [isRetryableErr]
  · intro hre
    have hloop := putItemLoop_stop resps 0
      (Or.inr (Or.inl (fun e' he' => by
        rw [h0] at he'
        cases he'
        exact hre)))
    rw [h0] at hloop
    simp only [putItem, hlen, if_false]
    rw [hloop]
  · intro hre
    have htr := putItem_trace attributes resps hne
    rw [putItemLoop.eq_def] at htr
    simp only [ge_iff_le, maxNumberOfRetry, h0, hre, if_true] at htr
    have hge := putItemLoop_attempts_ge resps maxNumberOfRetry 1 (by omega)
    have h04 : ¬ (4 : Nat) ≤ 0 := by omega
    simp only [h04, dite_false] at htr
    have : (putItem attributes resps).2.2 = (putItemLoop resps 1).2.2 := by
      rw [htr]
    omega

/-- Witness for C2's amended claim: the non-retryable `err400` surfaces
after one attempt, and the retryable `err500` leads to at least a second
attempt. -/
theorem putItem_retry_condition_witness :
    putItem [attrA] resps400 = ((false, some (.service err400)), [], 1) ∧
    2 ≤ (putItem [attrA] resps500).2.2 :=
  ⟨(putItem_retry_condition [attrA] resps400 (.service err400)
      (by simp) rfl).2.1 rfl,
    (putItem_retry_condition [attrA] resps500 (.service err500)
      (by simp) rfl).2.2 rfl⟩

/-- The sleep trace of the loop started at attempt `c` is some prefix of
the backoff schedule `k ↦ (1 <<< (c+k)) * 50`. -/
theorem putItemLoop_sleeps_shape (resps : Nat → Except DdbErr RawBody) :
    ∀ (d c : Nat), maxNumberOfRetry - c ≤ d →
      ∃ m, (putItemLoop resps c).2.1 =
        (List.range m).map (fun k => (1 <<< (c + k)) * 50) := by
  intro d
  induction d with
  | zero =>
      intro c hc
      rw [putItemLoop_stop resps c (Or.inl (by omega))]
      exact ⟨0, rfl⟩
  | succ d ih =>
      intro c hc
      rw [putItemLoop.eq_def]
      by_cases h4 : maxNumberOfRetry ≤ c
      · simp only [ge_iff_le, h4, dite_true]
        exact ⟨0, rfl⟩
      · simp only [ge_iff_le, h4, dite_false]
        rcases hr : resps c with e | b
        · by_cases hre : isRetryableErr e
          · simp only [hre, if_true]
            obtain ⟨m, hm⟩ := ih (c + 1) (by omega)
            refine ⟨m + 1, ?_⟩
            simp only [hm, List.range_succ_eq_map, List.map_cons, List.map_map,
              Nat.add_zero]
            have hfun : (fun k => 1 <<< (c + 1 + k) * 50) =
                (fun k => 1 <<< (c + k) * 50) ∘ Nat.succ := by
              funext k
              simp only [Function.comp_apply, Nat.succ_eq_add_one]
              congr 2
              omega
            rw [hfun]
          · simp only [hre, if_false]
            exact ⟨0, rfl⟩
        · exact ⟨0, rfl⟩

/-- C3: whatever the server answers, the delay slept before retry `k`
(0-indexed) of the Put retry tier is `2 ^ k * 50` milliseconds — so the
possible traces are prefixes of 50ms, 100ms, 200ms, 400ms. -/
theorem putItem_backoff_schedule (attributes : List Attribute)
    (resps : Nat → Except DdbErr RawBody) (k : Nat)
    (h : k < (putItem attributes resps).2.1.length) :
    (putItem attributes resps).2.1.getD k 0 = 2 ^ k * 50 := by
  by_cases hne : attributes = []
  · subst hne
    simp [putItem] at h
  · have htr := putItem_trace attributes resps hne
    obtain ⟨m, hm⟩ := putItemLoop_sleeps_shape resps maxNumberOfRetry 0 (by omega)
    have hsl : (putItem attributes resps).2.1 =
        (List.range m).map (fun k => (1 <<< k) * 50) := by
      have : (putItem attributes resps).2.1 = (putItemLoop resps 0).2.1 := by
        rw [htr]
      rw [this, hm]
      simp
    rw [hsl] at h ⊢
    simp only [List.length_map, List.length_range] at h
    rw [List.getD_eq_getElem _ _ (by simpa using h)]
    simp [Nat.one_shiftLeft]

/-- Witness for C3: against the all-500 server the third retry's recorded
delay is `2 ^ 2 * 50 = 200` ms. -/
theorem putItem_backoff_schedule_witness :
    2 < (putItem [attrA] resps500).2.1.length ∧
    (putItem [attrA] resps500).2.1.getD 2 0 = 2 ^ 2 * 50 := by
  have h : 2 < (putItem [attrA] resps500).2.1.length := by
    simp [putItem, putItemLoop, resps500, isRetryableErr, err500, attrA,
      maxNumberOfRetry]
  exact ⟨h, putItem_backoff_schedule [attrA] resps500 2 h⟩

/-- A throttling response body whose `__type` is the provisioned
throughput code. -/
def throttleBody : Jval :=
  .jobj [("__type", .jstr "ProvisionedThroughputExceededException"),
    ("message", .jstr "Rate exceeded")]

/-- A non-200 throttling response. -/
def throttleResp : HttpResponse :=
  { statusCode := 400, status := "400 Bad Request", body := .valid throttleBody }

/-- The throttling response as a transport event. -/
def throttleEvent : TransportEvent := .resp throttleResp

/-- The typed error `buildError` produces for `throttleResp`. -/
def throttleError : Error :=
  { StatusCode := 400, Status := "400 Bad Request"
    Code := "ProvisionedThroughputExceededException", Message := "Rate exceeded" }

/-- `buildError` classifies `throttleResp` as the throttling error. -/
theorem buildError_throttleResp : buildError throttleResp = throttleError := by
  decide

/-- A 200 response wrapping the given raw body. -/
def okResp (b : RawBody) : HttpResponse :=
  { statusCode := 200, status := "200 OK", body := b }

/-- With `retryCount = r ≥ 0`, `n` throttling responses followed by a 200
cost `n + 1` exchanges and sleeps of `r+1, r+2, ...` seconds. -/
theorem rawQueryServer_throttle_aux (b : RawBody) :
    ∀ (n : Nat) (r : Int), 0 ≤ r →
      rawQueryServer (List.replicate n throttleEvent ++ [.resp (okResp b)]) r =
        (.ok b, (List.range n).map (fun (i : Nat) => r + 1 + (i : Int)), n + 1) := by
  intro n
  induction n with
  | zero =>
      intro r _
      simp [rawQueryServer, okResp]
  | succ n ih =>
      intro r hr
      rw [List.replicate_succ, List.cons_append]
      show rawQueryServer (.resp throttleResp :: _) r = _
      rw [rawQueryServer]
      rw [buildError_throttleResp]
      rw [if_pos (show throttleResp.statusCode ≠ 200 by decide)]
      rw [if_pos (show throttleError.Code = ProvisionedThroughputExceeded ∧ r ≥ 0
        from ⟨by decide, hr⟩)]
      simp only [ih (r + 1) (by omega)]
      simp only [List.range_succ_eq_map, List.map_cons, List.map_map,
        Nat.cast_zero, add_zero]
      have hfun : ((fun i : Nat => r + 1 + (i : Int)) ∘ Nat.succ) =
          (fun i : Nat => r + 1 + 1 + (i : Int)) := by
        funext i
        simp only [Function.comp_apply, Nat.succ_eq_add_one]
        push_cast
        ring
      rw [hfun]

/-- C4: in the transport-level throttling tier, a caller who opted in to
retries (`retryCount` starts at 0) sees `n` consecutive throttling
responses retried with linearly increasing sleeps of 1, 2, ..., `n`
seconds — for *every* `n`, i.e. with no explicit cap — until a 200
arrives after `n + 1` exchanges; a caller who did not opt in
(`retryCount = -1`) gets the throttling error back after a single
exchange, with no sleep and no retry, even with further responses
pending. -/
theorem rawQueryServer_throttling_tier (n : Nat) (b : RawBody) :
    rawQueryServer (List.replicate n throttleEvent ++ [.resp (okResp b)])
        (rawQueryTableRetryCount true) =
      (.ok b, (List.range n).map (fun (i : Nat) => (i : Int) + 1), n + 1) ∧
    rawQueryServer (throttleEvent :: List.replicate n throttleEvent)
        (rawQueryTableRetryCount false) =
      (.error (.service throttleError), [], 1) := by
  constructor
  · rw [show rawQueryTableRetryCount true = 0 from rfl]
    rw [rawQueryServer_throttle_aux b n 0 le_rfl]
    have hfun : (fun i : Nat => (0 : Int) + 1 + (i : Int)) =
        (fun i : Nat => (i : Int) + 1) := by
      funext i
      ring
    rw [hfun]
  · rw [show rawQueryTableRetryCount false = -1 from rfl]
    show rawQueryServer (.resp throttleResp :: _) (-1) = _
    rw [rawQueryServer]
    rw [buildError_throttleResp]
    rw [if_pos (show throttleResp.statusCode ≠ 200 by decide)]
    rw [if_neg (show ¬ (throttleError.Code = ProvisionedThroughputExceeded ∧
      (-1 : Int) ≥ 0) by simp)]

end Dynamodb
